import Mathlib

/-!
# Verification of the MCP-server dispatch runtime
Shallow embedding of `src/examples/base_server.py`, `src/postgres_mcp.py`,
`src/pgvector_memory_mcp.py` and `src/system_monitor_mcp.py`.

Conventions of the embedding:
* Python values that flow through tool handlers are modelled by `PyValue`.
* A raised Python exception is modelled as `Except.error msg` where `msg`
  is `str(exception)`; code that catches exceptions becomes a total function.
* `datetime.utcnow().isoformat()` and similar clock reads are passed in as an
  explicit `now : String` parameter.
* `json.dumps(v, indent=2, default=str)` is modelled by `jsonDumps`; the
  pretty-printing indentation is abstracted (the serializer emits the same
  token sequence compactly), and `default=str` is modelled by quoting the
  Python `str()` rendering of a non-serializable leaf.
-/

/-- MCP content blocks: `TextContent` / `ImageContent` from `mcp.types`. -/
inductive ContentBlock where
  | text (text : String)
  | image (data : List Nat)
deriving DecidableEq, Repr

/-- Python runtime values handled by the servers.  `content` wraps an MCP
content object (`TextContent`/`ImageContent`); `obj` stands for any other
Python object, carrying its `str()` rendering. -/
inductive PyValue where
  | str (s : String)
  | bytes (b : List Nat)
  | int (n : Int)
  | bool (b : Bool)
  | none
  | list (xs : List PyValue)
  | dict (kvs : List (String × PyValue))
  | content (c : ContentBlock)
  | obj (reprStr : String)
deriving Repr

/-- One quote character, built numerically (ASCII 39). -/
def singleQuote : String := String.singleton (Char.ofNat 39)

/-- Bytes rendered as ASCII characters (escape forms abstracted). -/
def asciiOfBytes (b : List Nat) : String := String.mk (b.map Char.ofNat)

/-- Python `str()` of a `bytes` value, e.g. `b'abc'` (escapes abstracted). -/
def pyStrBytes (b : List Nat) : String :=
  "b" ++ singleQuote ++ asciiOfBytes b ++ singleQuote

/-- Python `str()` of an MCP content object (pydantic repr abstracted to a
simple rendering; no claim depends on its exact form). -/
def pyStrContent : ContentBlock → String
  | .text s => "type=text text=" ++ s
  | .image d => "type=image data=" ++ asciiOfBytes d

/-- JSON string escaping for the characters Python's `json.dumps` escapes in
the inputs we model (quote, backslash, newline, tab, carriage return). -/
def jsonEscapeChar (c : Char) : String :=
  if c = Char.ofNat 34 then "\\\""
  else if c = Char.ofNat 92 then "\\\\"
  else if c = Char.ofNat 10 then "\\n"
  else if c = Char.ofNat 9 then "\\t"
  else if c = Char.ofNat 13 then "\\r"
  else String.singleton c

/-- Escape a whole string for JSON. -/
def jsonEscape (s : String) : String := String.join (s.toList.map jsonEscapeChar)

/-- A JSON string literal. -/
def jsonQuote (s : String) : String := "\"" ++ jsonEscape s ++ "\""

mutual

/-- `json.dumps(v, default=str)`: total serialization of a `PyValue`.
Non-serializable leaves (`bytes`, MCP content objects, arbitrary objects) are
coerced to their `str()` rendering, so serialization never fails. -/
def jsonDumps : PyValue → String
  | .str s => jsonQuote s
  | .bytes b => jsonQuote (pyStrBytes b)
  | .int n => toString n
  | .bool b => if b then "true" else "false"
  | .none => "null"
  | .list xs => "[" ++ jsonDumpsList xs ++ "]"
  | .dict kvs => "\x7b" ++ jsonDumpsDict kvs ++ "\x7d"
  | .content c => jsonQuote (pyStrContent c)
  | .obj r => jsonQuote r

/-- Comma-separated serialization of a JSON array's elements. -/
def jsonDumpsList : List PyValue → String
  | [] => ""
  | [v] => jsonDumps v
  | v :: vs => jsonDumps v ++ ", " ++ jsonDumpsList vs

/-- Comma-separated serialization of a JSON object's members, in insertion
order (Python dicts preserve insertion order). -/
def jsonDumpsDict : List (String × PyValue) → String
  | [] => ""
  | [(k, v)] => jsonQuote k ++ ": " ++ jsonDumps v
  | (k, v) :: kvs => jsonQuote k ++ ": " ++ jsonDumps v ++ ", " ++ jsonDumpsDict kvs

end

/-- Python `str()` as used in f-string interpolation.  The container and
object cases abstract Python's repr formatting (no claim depends on them). -/
def pyStr : PyValue → String
  | .str s => s
  | .int n => toString n
  | .bool b => if b then "True" else "False"
  | .none => "None"
  | .obj r => r
  | .bytes b => pyStrBytes b
  | .content c => pyStrContent c
  | v => jsonDumps v

/-- `isinstance(item, (TextContent, ImageContent))`. -/
def isContentItem : PyValue → Bool
  | .content _ => true
  | _ => false

/-- Unwrap a content object. -/
def toContentItem : PyValue → Option ContentBlock
  | .content c => some c
  | _ => none

/-- `isinstance(result, str)`. -/
def isStrV : PyValue → Bool
  | .str _ => true
  | _ => false

/-- `isinstance(result, bytes)`. -/
def isBytesV : PyValue → Bool
  | .bytes _ => true
  | _ => false

/-- `isinstance(result, list) and all(isinstance(item, (TextContent, ImageContent)) for item in result)`. -/
def isContentListV : PyValue → Bool
  | .list xs => xs.all isContentItem
  | _ => false

/-- `BaseMCPServer._format_result` (src/examples/base_server.py:124-147):
string → one Text block; bytes → one Image block; a list whose items are all
content objects → returned unchanged; anything else → one Text block holding
`json.dumps(result, indent=2, default=str)`. -/
def format_result : PyValue → List ContentBlock
  | .str s => [.text s]
  | .bytes b => [.image b]
  | .list xs =>
      if xs.all isContentItem then xs.filterMap toContentItem
      else [.text (jsonDumps (.list xs))]
  | v => [.text (jsonDumps v)]

example : format_result (.str "hi") = [.text "hi"] := by decide
example : format_result (.list []) = [] := by decide
example : format_result (.dict [("a", .int 1)]) = [.text "\x7b\"a\": 1\x7d"] := by decide

/-- An `arguments` mapping: Python dict from argument name to value, in
insertion order. -/
def Args := List (String × PyValue)

/-- `arguments.get(key, default)`. -/
def argGet (args : Args) (key : String) (dflt : PyValue) : PyValue :=
  match List.lookup key args with
  | some v => v
  | Option.none => dflt

/-- The JSON text of an `ErrorPayload`:
`json.dumps({"error": err, "tool": tool, "timestamp": ts}, indent=2)`
(src/examples/base_server.py:117-121). -/
def errorPayloadJson (err tool ts : String) : String :=
  jsonDumps (.dict [("error", .str err), ("tool", .str tool), ("timestamp", .str ts)])

/-- `BaseMCPServer.handle_call_tool` (src/examples/base_server.py:98-122),
over an abstract `execute_tool` supplied by the concrete subclass.  A raised
exception is an `Except.error` carrying `str(e)`; the clock read
`datetime.utcnow().isoformat()` is the `now` parameter.  The except-branch
turns any failure into one Text block holding the ErrorPayload JSON, so the
function is total: no failure crosses this boundary. -/
def handle_call_tool (execute_tool : String → Args → Except String PyValue)
    (name : String) (args : Args) (now : String) : List ContentBlock :=
  match execute_tool name args with
  | .ok result => format_result result
  | .error e => [.text (errorPayloadJson e name now)]

/-- `ExampleMCPServer.execute_tool` (src/examples/base_server.py:223-236).
`now` stands for `datetime.utcnow().isoformat()` in the `get_time` branch. -/
def example_execute_tool (now : String) (name : String) (args : Args) :
    Except String PyValue :=
  if name = "echo" then
    .ok (.str ("Echo: " ++ pyStr (argGet args "message" (.str ""))))
  else if name = "get_time" then
    .ok (.dict [("time", .str now), ("timezone", .str "UTC")])
  else
    .error ("Unknown tool: " ++ name)

/-! ## system_monitor_mcp.py -/

/-- The tool names dispatched by the `if/elif` chain of
`system_monitor_mcp.call_tool` (src/system_monitor_mcp.py:345-470). -/
def monitorToolNames : List String :=
  ["get_system_status", "get_processes", "get_memory_details", "get_disk_usage",
   "get_network_connections", "start_watchdog", "stop_watchdog",
   "get_watchdog_status", "check_service_health"]

/-- `call_tool` of src/system_monitor_mcp.py:342-475.  The nine known-tool
branches sample the host via psutil/subprocess and are abstracted behind the
`handlers` oracle; the final `else` branch (lines 471-475) is modelled
exactly: one Text block holding the bare string `Unknown tool: <name>`. -/
def monitor_call_tool (handlers : String → Args → List ContentBlock)
    (name : String) (args : Args) : List ContentBlock :=
  if name ∈ monitorToolNames then handlers name args
  else [.text ("Unknown tool: " ++ name)]

/-- `WATCHDOG_CONFIG` (src/system_monitor_mcp.py:25-32).  Thresholds are
floats in the source; they are exact small decimals, modelled in `ℚ`. -/
structure WatchdogConfig where
  cpu_threshold : ℚ
  memory_threshold : ℚ
  disk_threshold : ℚ
  temp_threshold : ℚ
  check_interval : ℕ
  enabled : Bool

/-- The literal configuration from the source. -/
def WATCHDOG_CONFIG : WatchdogConfig :=
  { cpu_threshold := 85, memory_threshold := 80, disk_threshold := 90,
    temp_threshold := 70, check_interval := 30, enabled := true }

/-- One poll's sampled data: the values `watchdog_check` reads from psutil /
`vcgencmd` / `check_service_health`.  `temp_celsius = none` models the
`vcgencmd` probe failing (the variable stays `None`). -/
structure Sample where
  cpu_percent : ℚ
  memory_percent : ℚ
  disk_percent : ℚ
  temp_celsius : Option ℚ
  services : List (String × Bool)

/-- One alert line written by `alert_to_stderr`
(src/system_monitor_mcp.py:148-152); the timestamp prefix printed on stderr
is abstracted away, keeping level and message. -/
structure Alert where
  level : String
  message : String
deriving DecidableEq, Repr

/-- `alert_to_stderr(message, level)` as the alert it emits. -/
def alert_to_stderr (message : String) (level : String) : Alert :=
  { level := level, message := message }

/-- Python's `f"{q:.1f}"` on a non-negative value, with round-half-even
abstracted to round-half-up (all sampled values in the claims are exact);
`num / den` is the floor since the operand is non-negative. -/
def fmt1 (q : ℚ) : String :=
  toString ((q * 10 + 1/2).num / ((q * 10 + 1/2).den : Int) / 10) ++ "." ++
    toString (((q * 10 + 1/2).num / ((q * 10 + 1/2).den : Int)).natAbs % 10)

/-- `watchdog_check` (src/system_monitor_mcp.py:155-194), as a function of
the sampled data: the list of alerts one poll iteration emits, in order.
The temperature guard mirrors Python's `if temp_celsius and temp_celsius >
...` — a `None` or `0.0` reading is falsy and emits nothing. -/
def watchdog_check (cfg : WatchdogConfig) (s : Sample) : List Alert :=
  (if cfg.cpu_threshold < s.cpu_percent then
    [alert_to_stderr ("High CPU usage: " ++ fmt1 s.cpu_percent ++ "%") "WARNING"]
   else []) ++
  (if cfg.memory_threshold < s.memory_percent then
    [alert_to_stderr ("High memory usage: " ++ fmt1 s.memory_percent ++ "%") "WARNING"]
   else []) ++
  (if cfg.disk_threshold < s.disk_percent then
    [alert_to_stderr ("High disk usage: " ++ fmt1 s.disk_percent ++ "%") "WARNING"]
   else []) ++
  (match s.temp_celsius with
   | some t =>
      if t ≠ 0 ∧ cfg.temp_threshold < t then
        [alert_to_stderr ("High temperature: " ++ fmt1 t ++ "°C") "WARNING"]
      else []
   | Option.none => []) ++
  (s.services.filterMap fun sv =>
    if sv.2 then Option.none
    else some (alert_to_stderr ("Service " ++ sv.1 ++ " is down or unreachable") "ERROR"))

/-- `start_watchdog` (src/system_monitor_mcp.py:214-223) on the global
`watchdog_running` flag: returns (result, new flag).  Thread spawning is
abstracted; the flag transition and return value are exact. -/
def start_watchdog (cfg : WatchdogConfig) (watchdog_running : Bool) : Bool × Bool :=
  if !watchdog_running && cfg.enabled then (true, true)
  else (false, watchdog_running)

/-- `stop_watchdog` (src/system_monitor_mcp.py:226-230): unconditionally
clears the flag and returns `True`. -/
def stop_watchdog (watchdog_running : Bool) : Bool × Bool :=
  (true, false)

example : start_watchdog WATCHDOG_CONFIG false = (true, true) := by decide
example : stop_watchdog false = (true, false) := by decide

/-! ## postgres_mcp.py -/

/-- Connection-lifecycle events of one invocation, in the order they happen. -/
inductive DBEvent where
  | acquire
  | rollback
  | commit
  | close
deriving DecidableEq, Repr

/-- What `cursor.execute` + the `cursor.description` test yield:
a row set (description non-null) or a command completion with a rowcount. -/
inductive QueryOutcome where
  | rows (data : List PyValue)
  | command (rowcount : Int)

/-- Oracle for the external database collaborator of `execute_query`:
whether `get_connection()` succeeds, what the query execution yields (or the
`str()` of the exception it raises), and whether `conn.commit()` succeeds. -/
structure PgConnOracle where
  connect : Except String Unit
  run : Except String QueryOutcome
  commitRes : Except String Unit

/-- `execute_query` (src/postgres_mcp.py:249-280) with its
`try/except/finally` made explicit: returns the envelope and the trace of
connection events.  `conn = None` before the `try`; the `finally` closes only
an acquired connection; the `except` rolls back before building the error
text.  Row sets are serialized with `json.dumps(results, indent=2,
default=str)`. -/
def execute_query (o : PgConnOracle) : List ContentBlock × List DBEvent :=
  match o.connect with
  | .error e => ([.text ("Query error: " ++ e)], [])
  | .ok _ =>
    match o.run with
    | .error e => ([.text ("Query error: " ++ e)], [.acquire, .rollback, .close])
    | .ok (.rows data) => ([.text (jsonDumps (.list data))], [.acquire, .close])
    | .ok (.command n) =>
      match o.commitRes with
      | .ok _ =>
          ([.text ("Query executed successfully. Rows affected: " ++ toString n)],
           [.acquire, .commit, .close])
      | .error e => ([.text ("Query error: " ++ e)], [.acquire, .rollback, .close])

/-- Python type name of a value, as it appears in an `AttributeError`. -/
def pyTypeName : PyValue → String
  | .str _ => "str"
  | .bytes _ => "bytes"
  | .int _ => "int"
  | .bool _ => "bool"
  | .none => "NoneType"
  | .list _ => "list"
  | .dict _ => "dict"
  | .content (.text _) => "TextContent"
  | .content (.image _) => "ImageContent"
  | .obj _ => "object"

/-- `arguments.get(k).keys()`: succeeds with the key list when the argument
is a dict, otherwise raises `AttributeError` — in particular a missing
argument gives `None`, and `None.keys()` raises
`'NoneType' object has no attribute 'keys'`. -/
def pyDictKeys (args : Args) (k : String) : Except String (List String) :=
  match List.lookup k args with
  | some (.dict kvs) => .ok (kvs.map Prod.fst)
  | some v => .error (singleQuote ++ pyTypeName v ++ singleQuote ++
      " object has no attribute " ++ singleQuote ++ "keys" ++ singleQuote)
  | Option.none => .error (singleQuote ++ "NoneType" ++ singleQuote ++
      " object has no attribute " ++ singleQuote ++ "keys" ++ singleQuote)

/-- The body of `postgres_mcp.call_tool` inside its `try`
(src/postgres_mcp.py:162-240).  Each known-tool branch ends in a call to
`execute_query`, which catches its own exceptions and returns an envelope —
abstracted here as the oracle `execRes` (at most one such call happens per
invocation); the query/parameter strings it is given do not affect the
envelope shape.  What can raise inside the `try` is the argument handling:
`data.keys()` / `where.keys()` on the insert, update and delete branches.
The final `else` returns the bare text `Unknown tool: <name>`. -/
def postgres_call_tool_body (execRes : List ContentBlock)
    (name : String) (args : Args) : Except String (List ContentBlock) :=
  if name = "postgres_query" then .ok execRes
  else if name = "postgres_list_tables" then .ok execRes
  else if name = "postgres_describe_table" then .ok execRes
  else if name = "postgres_insert" then
    (pyDictKeys args "data").map fun _ => execRes
  else if name = "postgres_update" then
    (pyDictKeys args "data").bind fun _ =>
      (pyDictKeys args "where").map fun _ => execRes
  else if name = "postgres_delete" then
    (pyDictKeys args "where").map fun _ => execRes
  else .ok [.text ("Unknown tool: " ++ name)]

/-- `postgres_mcp.call_tool` (src/postgres_mcp.py:159-246): the outer
`try/except` turns any exception raised by the body into one Text block
holding the plain string `Error: <str(e)>` (lines 242-246). -/
def postgres_call_tool (execRes : List ContentBlock)
    (name : String) (args : Args) : List ContentBlock :=
  match postgres_call_tool_body execRes name args with
  | .ok content => content
  | .error e => [.text ("Error: " ++ e)]

/-! ## pgvector_memory_mcp.py -/

/-- Oracle for the asyncpg collaborator of the `list_memory_types` branch:
whether `get_db_connection()` succeeds and what `conn.fetch` returns
(type/count rows, or the `str()` of the exception it raises). -/
structure PgvOracle where
  connect : Except String Unit
  fetch : Except String (List (String × Int))

/-- The `Memory types:` text built from the fetched rows
(src/pgvector_memory_mcp.py:280-282). -/
def renderMemoryTypes (rows : List (String × Int)) : String :=
  "Memory types:\n\n" ++
    String.join (rows.map fun r => "• " ++ r.1 ++ ": " ++ toString r.2 ++ " entries\n")

/-- The `list_memory_types` branch of `pgvector_memory_mcp.call_tool`
(src/pgvector_memory_mcp.py:265-289): the connection is acquired before the
`try`, so a failing acquisition propagates (`Except.error`) with nothing to
release; once acquired, the `finally` closes it on the success, empty-rows
and exception paths alike. -/
def list_memory_types (o : PgvOracle) :
    Except String (List ContentBlock) × List DBEvent :=
  match o.connect with
  | .error e => (.error e, [])
  | .ok _ =>
    match o.fetch with
    | .error e =>
        (.ok [.text ("Error listing memory types: " ++ e)], [.acquire, .close])
    | .ok rows =>
        if rows.isEmpty then
          (.ok [.text "No memory types found"], [.acquire, .close])
        else
          (.ok [.text (renderMemoryTypes rows)], [.acquire, .close])

/-! ## Statement-side measurement helpers -/

/-- Whether an alert is a WARNING. -/
def isWarning (a : Alert) : Bool := a.level == "WARNING"

/-- Whether a string starts with an opening brace (`json.dumps` of any dict
starts with one, so a string that fails this test serializes no JSON
object). -/
def firstCharIsBrace (s : String) : Bool := s.data.head? == some (Char.ofNat 123)

/-! ## Helper lemmas -/

theorem all_content_map (cs : List ContentBlock) :
    (cs.map PyValue.content).all isContentItem = true := by
  rw [List.all_eq_true]
  intro x hx
  obtain ⟨c, _, rfl⟩ := List.mem_map.mp hx
  rfl

theorem filterMap_content_map (cs : List ContentBlock) :
    (cs.map PyValue.content).filterMap toContentItem = cs := by
  induction cs with
  | nil => rfl
  | cons c cs ih =>
      simp only [List.map_cons, List.filterMap_cons, toContentItem]
      rw [ih]

theorem format_result_content_list (cs : List ContentBlock) :
    format_result (.list (cs.map .content)) = cs := by
  have hunfold : format_result (.list (cs.map .content)) =
      if (cs.map PyValue.content).all isContentItem then
        (cs.map PyValue.content).filterMap toContentItem
      else [.text (jsonDumps (.list (cs.map .content)))] := rfl
  rw [hunfold, all_content_map, if_pos rfl]
  exact filterMap_content_map cs

/-! ## Claims about the ContentNormalizer -/

/-- C5: a handler return value that is already a sequence of ContentBlock
values passes through `_format_result` unchanged, and therefore normalizing
the output of a normalization changes nothing (idempotence). -/
theorem claim_C5_pass_through :
    (∀ cs : List ContentBlock, format_result (.list (cs.map .content)) = cs) ∧
    (∀ v : PyValue,
      format_result (.list ((format_result v).map .content)) = format_result v) :=
  ⟨format_result_content_list, fun v => format_result_content_list (format_result v)⟩

/-- C3 counterexample: a handler that returns the empty list produces an
empty `ResultEnvelope` on success — `_format_result` passes `[]` through the
already-formatted branch, so the envelope contains no ContentBlock, contrary
to the claimed non-emptiness invariant. -/
theorem claim_C3_counterexample : format_result (.list []) = [] := rfl

/-- C3 amended: for every raw handler return value other than the empty
list, the envelope produced by `_format_result` is non-empty. -/
theorem claim_C3_nonempty (v : PyValue) (h : v ≠ .list []) :
    format_result v ≠ [] := by
  cases v with
  | list xs =>
      cases xs with
      | nil => exact absurd rfl h
      | cons y ys =>
          simp only [format_result]
          split
          · rename_i hall
            cases y with
            | content c => simp [List.filterMap_cons, toContentItem]
            | str s => simp [isContentItem] at hall
            | bytes b => simp [isContentItem] at hall
            | int n => simp [isContentItem] at hall
            | bool b => simp [isContentItem] at hall
            | none => simp [isContentItem] at hall
            | list l => simp [isContentItem] at hall
            | dict d => simp [isContentItem] at hall
            | obj r => simp [isContentItem] at hall
          · simp
  | str s => simp [format_result]
  | bytes b => simp [format_result]
  | int n => simp [format_result]
  | bool b => simp [format_result]
  | none => simp [format_result]
  | dict kvs => simp [format_result]
  | content c => simp [format_result]
  | obj r => simp [format_result]

/-- C3 witness for the amended statement. -/
theorem claim_C3_nonempty_witness : format_result (.str "ok") ≠ [] :=
  claim_C3_nonempty (.str "ok") (fun h => PyValue.noConfusion h)

/-- C7: every handler return value that is not a string, not bytes, and not
a list of content objects is normalized to exactly one Text block holding
its `json.dumps(·, default=str)` serialization; `jsonDumps` is total, so
normalization never fails. -/
theorem claim_C7_json_fallback (v : PyValue) (h1 : isStrV v = false)
    (h2 : isBytesV v = false) (h3 : isContentListV v = false) :
    format_result v = [.text (jsonDumps v)] := by
  cases v with
  | str s => simp [isStrV] at h1
  | bytes b => simp [isBytesV] at h2
  | list xs => simp only [isContentListV] at h3; simp [format_result, h3]
  | int n => rfl
  | bool b => rfl
  | none => rfl
  | dict kvs => rfl
  | content c => rfl
  | obj r => rfl

/-- C7 witness: the mapping `{"a": 1, "b": [1, 2]}` becomes one Text block
with its JSON serialization. -/
theorem claim_C7_json_fallback_witness :
    format_result (.dict [("a", .int 1), ("b", .list [.int 1, .int 2])]) =
      [.text (jsonDumps (.dict [("a", .int 1), ("b", .list [.int 1, .int 2])]))] :=
  claim_C7_json_fallback _ rfl rfl rfl

/-- C8: a string result is normalized to exactly one Text block carrying
that string, and the `echo` handler called with `{"message": "hi"}` yields
an envelope with exactly one Text block equal to `Echo: hi`. -/
theorem claim_C8_string_result :
    (∀ s : String, format_result (.str s) = [.text s]) ∧
    (∀ clock ts : String,
      handle_call_tool (example_execute_tool clock) "echo"
        [("message", .str "hi")] ts = [.text "Echo: hi"]) :=
  ⟨fun s => rfl, fun clock ts => rfl⟩

/-- C10: calling `echo` with an arguments mapping lacking the required key
`message` produces no validation error and no ErrorPayload: `execute_tool`
substitutes the empty string, and the envelope is one Text block `Echo: `
— the declared required-argument constraint is not enforced at dispatch. -/
theorem claim_C10_echo_missing_message (args : Args) (clock ts : String)
    (h : List.lookup "message" args = Option.none) :
    handle_call_tool (example_execute_tool clock) "echo" args ts =
      [.text "Echo: "] := by
  simp [handle_call_tool, example_execute_tool, argGet, h, pyStr, format_result]

/-- C10 witness: the empty arguments mapping. -/
theorem claim_C10_echo_missing_message_witness :
    handle_call_tool (example_execute_tool "c") "echo" [] "t" =
      [.text "Echo: "] :=
  claim_C10_echo_missing_message [] "c" "t" rfl

/-! ## Claims about failure containment at the dispatch boundary -/

/-- C1 counterexample: in `postgres_mcp.call_tool`, calling `postgres_insert`
with no `data` argument makes the handler body raise
(`None.keys()` → AttributeError), and the returned envelope's text is the
plain string `Error: <str(e)>` — it does not even start with a brace, so it
is the JSON serialization of no object, in particular not of
`{error, tool, timestamp}`; the third conjunct shows an actual ErrorPayload
serialization does start with a brace. -/
theorem claim_C1_counterexample :
    postgres_call_tool [] "postgres_insert" [] =
      [.text ("Error: " ++ singleQuote ++ "NoneType" ++ singleQuote ++
        " object has no attribute " ++ singleQuote ++ "keys" ++ singleQuote)] ∧
    firstCharIsBrace ("Error: " ++ singleQuote ++ "NoneType" ++ singleQuote ++
        " object has no attribute " ++ singleQuote ++ "keys" ++ singleQuote) = false ∧
    firstCharIsBrace (errorPayloadJson "boom" "postgres_insert" "t") = true := by
  refine ⟨rfl, ?_, ?_⟩ <;> decide

/-- C1 amended: any exception the handler raises is contained at the dispatch
boundary, which returns exactly one Text block; in
`BaseMCPServer.handle_call_tool` that block's text is the JSON serialization
of `{error: str(failure), tool: name, timestamp: now()}`, while in
`postgres_mcp.call_tool` it is the plain string `Error: <str(failure)>`
(no JSON, no tool/timestamp fields). -/
theorem claim_C1_error_containment :
    (∀ (exec : String → Args → Except String PyValue) (name : String)
      (args : Args) (now e : String), exec name args = .error e →
        handle_call_tool exec name args now =
          [.text (errorPayloadJson e name now)]) ∧
    (∀ (execRes : List ContentBlock) (name : String) (args : Args) (e : String),
      postgres_call_tool_body execRes name args = .error e →
        postgres_call_tool execRes name args = [.text ("Error: " ++ e)]) := by
  constructor
  · intro exec name args now e h
    simp [handle_call_tool, h]
  · intro execRes name args e h
    simp [postgres_call_tool, h]

/-- C1 witness for the amended statement: a handler that raises `boom`. -/
theorem claim_C1_error_containment_witness :
    handle_call_tool (fun _ _ => .error "boom") "sometool" [] "2024-01-01" =
      [.text (errorPayloadJson "boom" "sometool" "2024-01-01")] :=
  claim_C1_error_containment.1 (fun _ _ => .error "boom") "sometool" [] "2024-01-01"
    "boom" rfl

/-- C2 counterexample: `system_monitor_mcp.call_tool` on an unregistered name
returns one Text block holding the bare string `Unknown tool: nonexistent`
— not JSON (it does not start with a brace), with no `tool` or `error`
field; the third conjunct shows an ErrorPayload serialization for the same
name does start with a brace. -/
theorem claim_C2_counterexample :
    monitor_call_tool (fun _ _ => []) "nonexistent" [] =
      [.text "Unknown tool: nonexistent"] ∧
    firstCharIsBrace "Unknown tool: nonexistent" = false ∧
    firstCharIsBrace (errorPayloadJson "Unknown tool: nonexistent" "nonexistent" "t")
      = true := by
  refine ⟨?_, ?_, ?_⟩ <;> decide

/-- C2 amended: an unknown tool name yields one Text block; in the base
dispatcher (`BaseMCPServer.handle_call_tool` over
`ExampleMCPServer.execute_tool`) its text is the ErrorPayload JSON whose
`tool` field is the requested name and whose `error` field is the non-empty
`Unknown tool: <name>`, while `system_monitor_mcp.call_tool` returns the
bare string `Unknown tool: <name>` instead of JSON. -/
theorem claim_C2_unknown_tool :
    (∀ (clock ts name : String) (args : Args),
      name ≠ "echo" → name ≠ "get_time" →
        handle_call_tool (example_execute_tool clock) name args ts =
          [.text (errorPayloadJson ("Unknown tool: " ++ name) name ts)]) ∧
    (∀ (handlers : String → Args → List ContentBlock) (name : String)
      (args : Args), name ∉ monitorToolNames →
        monitor_call_tool handlers name args =
          [.text ("Unknown tool: " ++ name)]) := by
  constructor
  · intro clock ts name args h1 h2
    simp [handle_call_tool, example_execute_tool, h1, h2]
  · intro handlers name args h
    simp [monitor_call_tool, h]

/-- C2 witness for the amended statement: the spec's `nonexistent` scenario
through the base dispatcher. -/
theorem claim_C2_unknown_tool_witness :
    handle_call_tool (example_execute_tool "c") "nonexistent" [] "t" =
      [.text (errorPayloadJson ("Unknown tool: " ++ "nonexistent")
        "nonexistent" "t")] :=
  claim_C2_unknown_tool.1 "c" "t" "nonexistent" [] (by decide) (by decide)

/-! ## Claims about the watchdog -/

/-- C4 counterexample: with the watchdog in the `Stopped` state
(`watchdog_running = false`), `stop_watchdog` returns `True` — success, not
the claimed failure (its caller's `"Watchdog was not running"` message is
unreachable); the state stays `Stopped`. -/
theorem claim_C4_counterexample : stop_watchdog false = (true, false) := rfl

/-- C4 amended: `start()` implements the claimed two-state behaviour
(success from `Stopped` when monitoring is enabled, failure from `Running`
with the state unchanged), but `stop()` always returns success and clears
the flag — so `stop()` in `Stopped` returns success (not failure) with the
state unchanged, and `stop()` in `Running` returns success and transitions
to `Stopped`. -/
theorem claim_C4_state_machine (cfg : WatchdogConfig) (running : Bool) :
    (running = false → cfg.enabled = true →
      start_watchdog cfg running = (true, true)) ∧
    (running = true → start_watchdog cfg running = (false, true)) ∧
    (running = true → stop_watchdog running = (true, false)) ∧
    (running = false → stop_watchdog running = (true, false)) := by
  refine ⟨?_, ?_, ?_, ?_⟩ <;> intro h <;>
    simp_all [start_watchdog, stop_watchdog]

/-- C4 witness for the amended statement: `start()` from `Stopped` with the
source's configuration (monitoring enabled) succeeds and the state becomes
`Running`. -/
theorem claim_C4_state_machine_witness :
    start_watchdog WATCHDOG_CONFIG false = (true, true) :=
  (claim_C4_state_machine WATCHDOG_CONFIG false).1 rfl rfl

/-! ## C6: per-poll alert emission -/

theorem countP_warn_if (c : Prop) [Decidable c] (m : String) :
    ((if c then [alert_to_stderr m "WARNING"] else []).countP isWarning) =
      if c then 1 else 0 := by
  by_cases h : c <;> simp [h, isWarning, alert_to_stderr]

theorem countP_warn_temp (thr : ℚ) (o : Option ℚ) (h0 : 0 ≤ thr) :
    ((match o with
      | some t =>
          if t ≠ 0 ∧ thr < t then
            [alert_to_stderr ("High temperature: " ++ fmt1 t ++ "°C") "WARNING"]
          else []
      | Option.none => []).countP isWarning) =
      o.elim 0 (fun t => if thr < t then 1 else 0) := by
  cases o with
  | none => rfl
  | some t =>
      by_cases h : thr < t
      · have ht : t ≠ 0 := ne_of_gt (lt_of_le_of_lt h0 h)
        simp [h, ht, isWarning, alert_to_stderr]
      · simp [h, isWarning]

theorem countP_service_alerts (svs : List (String × Bool)) :
    ((svs.filterMap fun sv =>
        if sv.2 then Option.none
        else some (alert_to_stderr ("Service " ++ sv.1 ++ " is down or unreachable")
          "ERROR")).countP isWarning) = 0 := by
  induction svs with
  | nil => rfl
  | cons sv svs ih =>
      obtain ⟨n, healthy⟩ := sv
      cases healthy <;> simp [List.filterMap_cons, isWarning, alert_to_stderr, ih]

/-- C6: in one `watchdog_check` iteration against the source's
`WATCHDOG_CONFIG`, the number of WARNING alerts equals the number of sampled
metrics strictly above their thresholds (one per exceeding metric, none for
a metric at or below); when only the CPU exceeds, the envelope is exactly
one WARNING naming CPU; in particular `cpu=90` emits exactly the single
WARNING `High CPU usage: 90.0%` and `cpu=80` emits nothing. -/
theorem claim_C6_watchdog_alerts (s : Sample) :
    ((watchdog_check WATCHDOG_CONFIG s).countP isWarning =
      ((if (85:ℚ) < s.cpu_percent then 1 else 0) +
       (if (80:ℚ) < s.memory_percent then 1 else 0) +
       (if (90:ℚ) < s.disk_percent then 1 else 0) +
       s.temp_celsius.elim 0 (fun t => if (70:ℚ) < t then 1 else 0))) ∧
    ((85:ℚ) < s.cpu_percent → s.memory_percent ≤ 80 → s.disk_percent ≤ 90 →
      (∀ t ∈ s.temp_celsius, t ≤ 70) → (∀ sv ∈ s.services, sv.2 = true) →
      watchdog_check WATCHDOG_CONFIG s =
        [alert_to_stderr ("High CPU usage: " ++ fmt1 s.cpu_percent ++ "%")
          "WARNING"]) ∧
    watchdog_check WATCHDOG_CONFIG
      { cpu_percent := 90, memory_percent := 50, disk_percent := 50,
        temp_celsius := Option.none, services := [] } =
      [alert_to_stderr "High CPU usage: 90.0%" "WARNING"] ∧
    watchdog_check WATCHDOG_CONFIG
      { cpu_percent := 80, memory_percent := 50, disk_percent := 50,
        temp_celsius := Option.none, services := [] } = [] := by
  refine ⟨?_, ?_, ?_, ?_⟩
  · simp only [watchdog_check, WATCHDOG_CONFIG, List.countP_append]
    rw [countP_warn_if, countP_warn_if, countP_warn_if,
      countP_warn_temp 70 s.temp_celsius (by norm_num), countP_service_alerts]
    exact Nat.add_zero _
  · intro h1 h2 h3 ht hsv
    have hm : ¬((80:ℚ) < s.memory_percent) := not_lt.mpr h2
    have hd : ¬((90:ℚ) < s.disk_percent) := not_lt.mpr h3
    have hsvc : (s.services.filterMap fun sv =>
        if sv.2 then Option.none
        else some (alert_to_stderr ("Service " ++ sv.1 ++ " is down or unreachable")
          "ERROR")) = [] := by
      rw [List.filterMap_eq_nil_iff]
      intro sv hsv'
      simp [hsv sv hsv']
    cases htc : s.temp_celsius with
    | none => simp [watchdog_check, WATCHDOG_CONFIG, h1, hm, hd, htc, hsvc]
    | some t =>
        have htle : t ≤ 70 := ht t (by simp [htc])
        have : ¬((70:ℚ) < t) := not_lt.mpr htle
        simp [watchdog_check, WATCHDOG_CONFIG, h1, hm, hd, htc, hsvc, this]
  · have hf : fmt1 (90:ℚ) = "90.0" := by norm_num [fmt1]; rfl
    norm_num [watchdog_check, WATCHDOG_CONFIG, hf]
    rfl
  · norm_num [watchdog_check, WATCHDOG_CONFIG]

/-- C6 witness for the isolated-CPU part: the spec's `cpu=90` sample. -/
theorem claim_C6_watchdog_alerts_witness :
    watchdog_check WATCHDOG_CONFIG
      { cpu_percent := 90, memory_percent := 50, disk_percent := 50,
        temp_celsius := Option.none, services := [] } =
      [alert_to_stderr ("High CPU usage: " ++ fmt1 (90:ℚ) ++ "%") "WARNING"] :=
  (claim_C6_watchdog_alerts
    { cpu_percent := 90, memory_percent := 50, disk_percent := 50,
      temp_celsius := Option.none, services := [] }).2.1
    (by norm_num) (by norm_num) (by norm_num) (by simp) (by simp)

/-! ## C9: connection lifecycle -/

/-- C9: in `postgres_mcp.execute_query` every acquired connection is closed
on every exit path (the trace holds as many closes as acquires, and at most
one acquire per invocation — a fresh connection each call, none reused);
when the query raises, the connection is rolled back (the trace is exactly
acquire, rollback, close) and the error envelope is still returned; the
`list_memory_types` branch of `pgvector_memory_mcp.call_tool` likewise
closes its connection on success, empty-result and exception paths. -/
theorem claim_C9_connection_release :
    (∀ o : PgConnOracle,
      (execute_query o).2.count DBEvent.close =
        (execute_query o).2.count DBEvent.acquire ∧
      (execute_query o).2.count DBEvent.acquire ≤ 1) ∧
    (∀ (o : PgConnOracle) (e : String), o.connect = .ok () → o.run = .error e →
      execute_query o =
        ([.text ("Query error: " ++ e)],
         [DBEvent.acquire, DBEvent.rollback, DBEvent.close])) ∧
    (∀ o : PgvOracle,
      (list_memory_types o).2.count DBEvent.close =
        (list_memory_types o).2.count DBEvent.acquire ∧
      (list_memory_types o).2.count DBEvent.acquire ≤ 1) := by
  refine ⟨?_, ?_, ?_⟩
  · rintro ⟨c, r, cm⟩
    cases c with
    | error e => exact ⟨rfl, Nat.zero_le 1⟩
    | ok u =>
        cases u
        cases r with
        | error e => exact ⟨rfl, Nat.le.refl⟩
        | ok q =>
            cases q with
            | rows d => exact ⟨rfl, Nat.le.refl⟩
            | command n =>
                cases cm with
                | error e => exact ⟨rfl, Nat.le.refl⟩
                | ok u2 => cases u2; exact ⟨rfl, Nat.le.refl⟩
  · rintro ⟨c, r, cm⟩ e h1 h2
    simp only at h1 h2
    subst h1; subst h2
    rfl
  · rintro ⟨c, f⟩
    cases c with
    | error e => exact ⟨rfl, Nat.zero_le 1⟩
    | ok u =>
        cases u
        cases f with
        | error e => exact ⟨rfl, Nat.le.refl⟩
        | ok rows =>
            have htr : (list_memory_types ⟨.ok (), .ok rows⟩).2 =
                [DBEvent.acquire, DBEvent.close] := by
              simp only [list_memory_types]
              rw [apply_ite Prod.snd]
              exact ite_self _
            rw [htr]
            exact ⟨rfl, Nat.le.refl⟩

/-- C9 witness: a query that raises `boom` over a successfully acquired
connection — the envelope carries the error text and the trace is
acquire, rollback, close. -/
theorem claim_C9_connection_release_witness :
    execute_query ⟨.ok (), .error "boom", .ok ()⟩ =
      ([.text ("Query error: " ++ "boom")],
       [DBEvent.acquire, DBEvent.rollback, DBEvent.close]) :=
  claim_C9_connection_release.2.1 ⟨.ok (), .error "boom", .ok ()⟩ "boom" rfl rfl
